import Mathlib

/-!
Shallow embedding of the nd_okta_auth repository (okta.py and aws.py).

HTTP traffic is modeled by passing each response in as an explicit input;
operations that talk to the network additionally report how many requests
they issued. Python exceptions are modeled by the error type `Err`,
optional JSON dictionary fields by `Option`, and a Python dict lookup
`d[k]` on an optional field by the explicit step `getKey`, which raises
KeyError when the field is absent. Times are modeled as integer UTC
timestamps in seconds (the strptime of the fixed wire format in aws.py,
assumed to have succeeded).
-/

namespace NdOktaAuth

/-- Errors: the exception classes declared in okta.py and aws.py together
with the Python runtime errors this code can raise (KeyError on a missing
dictionary key, UnboundLocalError on reading a local that was never
assigned, IndexError on list indexing) and KeyboardInterrupt. -/
inductive Err where
  | emptyInput
  | invalidPassword
  | passcodeRequired (fid : String) (stateToken : String)
  | unknownError (body : Option String)
  | keyError (key : String)
  | unboundLocal (varName : String)
  | indexError
  | invalidSaml
  | keyboardInterrupt
  deriving Repr, DecidableEq

/-- The `_embedded.user.profile` object of an Okta JSON response; okta.py
reads firstName and lastName from it, and either may be absent. -/
structure Profile where
  firstName : Option String
  lastName : Option String
  deriving Repr, DecidableEq

/-- The `_embedded.user` object of an Okta JSON response. -/
structure EmbUser where
  profile : Option Profile
  deriving Repr, DecidableEq

/-- One entry of `_embedded.factors`; okta.py reads `id` and `factorType`
from each factor. -/
structure Factor where
  id : String
  factorType : String
  deriving Repr, DecidableEq

/-- The `_embedded` object of an Okta JSON response. -/
structure Embedded where
  user : Option EmbUser
  factors : Option (List Factor)
  deriving Repr, DecidableEq

/-- An Okta JSON response body, holding exactly the fields okta.py reads:
`status`, `sessionToken`, `stateToken`, `factorResult`, the
`_links.next.href` poll link, and `_embedded`. Each is optional, mirroring
a JSON dictionary that may lack the key. -/
structure AuthResponse where
  status : Option String
  sessionToken : Option String
  stateToken : Option String
  factorResult : Option String
  next : Option String
  embedded : Option Embedded
  deriving Repr, DecidableEq

/-- The mutable attributes of an Okta object that the modeled methods
touch: the credentials stored by __init__ and the session token stored by
set_token. -/
structure OktaState where
  username : String
  password : String
  session_token : Option String
  deriving Repr, DecidableEq

/-- The outcome of one POST made through Okta._request: either a parsed
JSON body from a response that passes raise_for_status, or an HTTPError
raised by raise_for_status, carrying the HTTP status code and the response
body. -/
inductive HttpResult where
  | ok (resp : AuthResponse)
  | httpError (code : Nat) (body : String)
  deriving Repr, DecidableEq

/-- Python dict lookup `d[k]` on an optional field: the value when
present, KeyError on the named key when absent. -/
def getKey {α : Type} (v : Option α) (k : String) : Except Err α :=
  match v with
  | some a => Except.ok a
  | none => Except.error (Err.keyError k)

/-- The test `user_input == '' or user_input is None` from Okta.__init__,
with `none` standing for Python None. -/
def emptyField : Option String → Bool
  | none => true
  | some s => decide (s = "")

/-- Okta.__init__: validates that organization, username and password are
neither the empty string nor None, raising EmptyInput otherwise, before
any network request can be made. On success it stores the credentials and
a session token of None. -/
def okta_init (organization username password : Option String) :
    Except Err OktaState :=
  if emptyField organization || emptyField username || emptyField password then
    Except.error Err.emptyInput
  else
    Except.ok ⟨username.getD "", password.getD "", none⟩

/-- Okta.set_token: reads `_embedded.user.profile.firstName` and
`.lastName` from the response (for the log line) before assigning
`self.session_token = ret['sessionToken']`; a missing key raises KeyError
at that point and leaves the stored session token untouched. -/
def set_token (ret : AuthResponse) (st : OktaState) : Except Err OktaState :=
  match getKey ret.embedded "_embedded" with
  | Except.error e => Except.error e
  | Except.ok emb =>
    match getKey emb.user "user" with
    | Except.error e => Except.error e
    | Except.ok u =>
      match getKey u.profile "profile" with
      | Except.error e => Except.error e
      | Except.ok p =>
        match getKey p.firstName "firstName" with
        | Except.error e => Except.error e
        | Except.ok _ =>
          match getKey p.lastName "lastName" with
          | Except.error e => Except.error e
          | Except.ok _ =>
            match getKey ret.sessionToken "sessionToken" with
            | Except.error e => Except.error e
            | Except.ok tok =>
              Except.ok ⟨st.username, st.password, some tok⟩

/-- Whether a response carries every field set_token reads: the nested
profile names and the session token. -/
def wellFormedSuccess (ret : AuthResponse) : Bool :=
  match ret.embedded with
  | none => false
  | some emb =>
    match emb.user with
    | none => false
    | some u =>
      match u.profile with
      | none => false
      | some p =>
        p.firstName.isSome && p.lastName.isSome && ret.sessionToken.isSome

/-- Okta.validate_mfa: rejects passcodes whose length is not 6 before any
request; otherwise POSTs the verify endpoint once. An HTTPError with code
403 yields False; any other HTTPError raises UnknownError carrying the
response body; a passing response is fed to set_token and True is
returned. The second component counts the requests issued. -/
def validate_mfa (st : OktaState) (fid state_token passcode : String)
    (resp : HttpResult) : Except Err (Bool × OktaState) × Nat :=
  if passcode.length ≠ 6 then (Except.ok (false, st), 0)
  else
    match resp with
    | HttpResult.httpError code body =>
      if code = 403 then (Except.ok (false, st), 1)
      else (Except.error (Err.unknownError (some body)), 1)
    | HttpResult.ok ret =>
      match set_token ret st with
      | Except.error e => (Except.error e, 1)
      | Except.ok st2 => (Except.ok (true, st2), 1)

/-- The body of the while loop in Okta.okta_verify_with_push, walking the
finite list of remaining poll responses. `ret` is the response currently
held, `used` the number of requests issued so far. Reading `ret['status']`
raises KeyError when absent; status SUCCESS leads to set_token and True;
otherwise a factorResult of REJECTED (the default when the key is absent)
returns False at once; otherwise the `_links.next.href` link is followed,
consuming the next response of the list. `none` means the modeled
response list was exhausted while the loop still wanted to poll. -/
def push_loop (st : OktaState) (ret : AuthResponse)
    (rest : List AuthResponse) (used : Nat) :
    Option (Except Err (Bool × OktaState) × Nat) :=
  match ret.status with
  | none => some (Except.error (Err.keyError "status"), used)
  | some s =>
    if s = "SUCCESS" then
      some ((set_token ret st).map (fun st2 => (true, st2)), used)
    else if ret.factorResult.getD "REJECTED" = "REJECTED" then
      some (Except.ok (false, st), used)
    else
      match ret.next with
      | none => some (Except.error (Err.keyError "_links.next.href"), used)
      | some _ =>
        match rest with
        | [] => none
        | r :: rs => push_loop st r rs (used + 1)

/-- Runs the polling loop on a whole list of responses, the first being
the one currently held. -/
def push_loop_seq (st : OktaState) (rs : List AuthResponse) (used : Nat) :
    Option (Except Err (Bool × OktaState) × Nat) :=
  match rs with
  | [] => none
  | r :: rest => push_loop st r rest used

/-- Okta.okta_verify_with_push: the trigger POST consumes the first
response of the list (request number 1) and the loop then polls through
the rest. -/
def okta_verify_with_push (st : OktaState) (rs : List AuthResponse) :
    Option (Except Err (Bool × OktaState) × Nat) :=
  push_loop_seq st rs 1

/-- A poll response on which the loop keeps polling: a present status
other than SUCCESS, a present factorResult other than REJECTED, and a
present next link. -/
def nonDecisive (r : AuthResponse) : Bool :=
  (match r.status with
   | none => false
   | some s => decide (s ≠ "SUCCESS"))
  && (match r.factorResult with
      | none => false
      | some fr => decide (fr ≠ "REJECTED"))
  && r.next.isSome

/-- The outcome of one call to okta_verify_with_push as observed by
Okta.auth: the call returned True having stored the given session token,
returned False (push rejected), or a KeyboardInterrupt arrived during the
polling wait. -/
inductive PushOutcome where
  | accepted (token : String)
  | rejected
  | interrupted
  deriving Repr, DecidableEq

/-- The push-factor for-loop of Okta.auth: okta_verify_with_push is tried
on each push factor in order; True makes auth return (the stored token is
reported here), False moves on to the next factor, and a
KeyboardInterrupt is caught and breaks out of the loop. `none` means the
loop fell through to the passcode path. -/
def push_scan (factors : List Factor) (pushFn : String → PushOutcome) :
    Option String :=
  match factors with
  | [] => none
  | f :: rest =>
    if f.factorType = "push" then
      match pushFn f.id with
      | PushOutcome.accepted tok => some tok
      | PushOutcome.rejected => push_scan rest pushFn
      | PushOutcome.interrupted => none
    else push_scan rest pushFn

/-- The totp for-loop of Okta.auth: the first factor whose factorType is
token:software:totp, if any. -/
def totp_scan (factors : List Factor) : Option Factor :=
  factors.find? (fun f => decide (f.factorType = "token:software:totp"))

/-- Okta.auth after __init__: POSTs /authn once (the outcome is `resp`).
An HTTPError is caught; code 401 raises InvalidPassword, and any other
code falls off the end of the except clause, after which reading `ret`
raises UnboundLocalError because the local was never assigned. Otherwise
the status field drives the state machine exactly as in the source:
SUCCESS stores the token, the two enroll statuses raise a bare
UnknownError, the two MFA statuses run the push loop and then the totp
loop, and anything else raises UnknownError carrying the status. -/
def auth (st : OktaState) (resp : HttpResult)
    (pushFn : String → PushOutcome) : Except Err OktaState :=
  match resp with
  | HttpResult.httpError code _ =>
    if code = 401 then Except.error Err.invalidPassword
    else Except.error (Err.unboundLocal "ret")
  | HttpResult.ok ret =>
    if ret.status = some "SUCCESS" then
      set_token ret st
    else if ret.status = some "MFA_ENROLL" ∨ ret.status = some "MFA_ENROLL_ACTIVATE" then
      Except.error (Err.unknownError none)
    else if ret.status = some "MFA_REQUIRED" ∨ ret.status = some "MFA_CHALLENGE" then
      match getKey ret.embedded "_embedded" with
      | Except.error e => Except.error e
      | Except.ok emb =>
        match getKey emb.factors "factors" with
        | Except.error e => Except.error e
        | Except.ok factors =>
          match push_scan factors pushFn with
          | some tok => Except.ok ⟨st.username, st.password, some tok⟩
          | none =>
            match totp_scan factors with
            | some f =>
              match getKey ret.stateToken "stateToken" with
              | Except.error e => Except.error e
              | Except.ok stok =>
                Except.error (Err.passcodeRequired f.id stok)
            | none => Except.error (Err.unknownError ret.status)
    else Except.error (Err.unknownError ret.status)

/-- Okta.__init__ followed by Okta.auth. The second component counts the
POSTs to the /authn endpoint: zero when __init__ raises, one otherwise
(requests issued by the push polling are accounted inside
okta_verify_with_push). -/
def authenticate (organization username password : Option String)
    (resp : HttpResult) (pushFn : String → PushOutcome) :
    Except Err OktaState × Nat :=
  match okta_init organization username password with
  | Except.error e => (Except.error e, 0)
  | Except.ok st => (auth st resp pushFn, 1)

/-- Session.is_within_renewal_buffer from aws.py:
`(now + renewal_buffer) < expiration_time` with a 600 second buffer,
on integer UTC timestamps. -/
def is_within_renewal_buffer (now expiration : Int) : Bool :=
  decide (now + 600 < expiration)

/-- Session.is_session_valid from aws.py: `now < expiration_time` on
integer UTC timestamps. -/
def is_session_valid (now expiration : Int) : Bool :=
  decide (now < expiration)

/-- One role entry as produced by aws_role_credentials'
SamlAssertion.roles(): the code reads the keys `role` and `principle`. -/
structure RoleEntry where
  role : String
  principle : String
  deriving Repr, DecidableEq

/-- Python list indexing `l[i]`: non-negative indices within range,
negative indices counting from the end of the list, and IndexError
(here `none`) for everything else. -/
def py_index {α : Type} (l : List α) (i : Int) : Option α :=
  if 0 ≤ i then l.get? i.toNat
  else if (-i).toNat ≤ l.length then l.get? (l.length - (-i).toNat)
  else none

/-- The role-extraction and role-selection steps of Session.assume_role.
`parsed` stands for the result of self.assertion.roles(): an xml
ParseError (the only exception the surrounding try/except catches,
converted to InvalidSaml) or the parsed role list, on which `roles()[0]`
raises an uncaught IndexError when the list is empty. When more than one
role is present, the integer typed at the input() prompt has 1 subtracted
and is applied to the list with raw Python indexing; there is no
validation and no second prompt. -/
def assume_role_select (parsed : Except Unit (List RoleEntry))
    (selection : Int) : Except Err RoleEntry :=
  match parsed with
  | Except.error _ => Except.error Err.invalidSaml
  | Except.ok roles =>
    match roles with
    | [] => Except.error Err.indexError
    | r0 :: rest =>
      if (r0 :: rest).length > 1 then
        match py_index (r0 :: rest) (selection - 1) with
        | some r => Except.ok r
        | none => Except.error Err.indexError
      else Except.ok r0

/-- A sample Okta state shared by the concrete instantiations below. -/
def sampleState : OktaState := ⟨"user1", "hunter22", none⟩

/-- A push callback that always reports a rejected push. -/
def samplePushReject : String → PushOutcome := fun _ => PushOutcome.rejected

/-- A push callback modeling a KeyboardInterrupt during every polling
wait. -/
def samplePushInterrupt : String → PushOutcome :=
  fun _ => PushOutcome.interrupted

/-- A SUCCESS response carrying every field set_token reads. -/
def sampleGoodSuccess : AuthResponse :=
  ⟨some "SUCCESS", some "tok1", none, none, none,
    some ⟨some ⟨some ⟨some "Ada", some "Lovelace"⟩⟩, none⟩⟩

/-- A SUCCESS response with a sessionToken but no `_embedded` object. -/
def sampleBrokenSuccess : AuthResponse :=
  ⟨some "SUCCESS", some "tok1", none, none, none, none⟩

/-- A waiting poll response on which the push loop keeps polling. -/
def sampleWaiting : AuthResponse :=
  ⟨some "MFA_CHALLENGE", none, none, some "WAITING", some "href1", none⟩

/-- An MFA factor list holding one push factor and one totp factor. -/
def sampleMfaFactors : List Factor :=
  [⟨"fp1", "push"⟩, ⟨"ft1", "token:software:totp"⟩]

/-- An MFA_REQUIRED login response offering sampleMfaFactors. -/
def sampleMfaResponse : AuthResponse :=
  ⟨some "MFA_REQUIRED", none, some "st9", none, none,
    some ⟨none, some sampleMfaFactors⟩⟩

/-- A first sample role entry. -/
def sampleRoleA : RoleEntry :=
  ⟨"arn:aws:iam::11:role/admin", "arn:aws:iam::11:saml-provider/okta"⟩

/-- A second sample role entry. -/
def sampleRoleB : RoleEntry :=
  ⟨"arn:aws:iam::11:role/reader", "arn:aws:iam::11:saml-provider/okta"⟩

/-- C1: on the /authn POST the code yields InvalidPassword exactly for
HTTP status 401; but for any other HTTP error status it does not raise
UnknownError carrying the response body — the except clause swallows the
HTTPError and the following read of the never-assigned local `ret` raises
UnboundLocalError instead. Evaluated at a 401 and at a 500 response. -/
theorem auth_http_error_behavior :
    auth sampleState (HttpResult.httpError 401 "denied") samplePushReject
      = Except.error Err.invalidPassword
  ∧ auth sampleState (HttpResult.httpError 500 "server error") samplePushReject
      = Except.error (Err.unboundLocal "ret")
  ∧ Err.unboundLocal "ret" ≠ Err.unknownError (some "server error")
  ∧ (∀ code : Nat, ∀ body : String,
      auth sampleState (HttpResult.httpError code body) samplePushReject
        = Except.error Err.invalidPassword ↔ code = 401) := by
  refine ⟨rfl, rfl, by decide, ?_⟩
  intro code body
  constructor
  · intro h
    by_contra hne
    simp [auth, hne] at h
  · intro h
    simp [auth, h]

/-- C5: whenever any of organization, username, password is the empty
string or None, authenticate fails with EmptyInput having issued zero
network requests. -/
theorem authenticate_empty_input (o u p : Option String)
    (resp : HttpResult) (pushFn : String → PushOutcome)
    (h : (emptyField o || emptyField u || emptyField p) = true) :
    authenticate o u p resp pushFn = (Except.error Err.emptyInput, 0) := by
  simp [authenticate, okta_init, h]

/-- C5 witness: empty organization with an otherwise healthy login. -/
theorem authenticate_empty_input_witness :
    authenticate (some "") (some "bob") (some "pw")
        (HttpResult.httpError 500 "x") samplePushReject
      = (Except.error Err.emptyInput, 0) :=
  authenticate_empty_input (some "") (some "bob") (some "pw")
    (HttpResult.httpError 500 "x") samplePushReject (by decide)

/-- C3 counterexample: with exactly 600 seconds remaining
(now 0, expiration 600) the code returns false although
`expiration - now < 600` does not hold, so is_within_renewal_buffer is
not false exactly when `expiration - now < 600s` and the boundary case is
not true. -/
theorem renewal_buffer_boundary_counterexample :
    is_within_renewal_buffer 0 600 = false ∧ ¬ ((600 : Int) - 0 < 600) := by
  constructor
  · decide
  · decide

/-- C3 amended: is_within_renewal_buffer is false exactly when
`expiration - now ≤ 600` seconds — the comparison `now + 600 < expiration`
is strict, so the boundary case of exactly 600 remaining seconds already
reports false. -/
theorem renewal_buffer_iff_le (now expiration : Int) :
    is_within_renewal_buffer now expiration = false
      ↔ expiration - now ≤ 600 := by
  unfold is_within_renewal_buffer
  simp only [decide_eq_false_iff_not]
  omega

/-- C10: a session still inside the renewal buffer is never already
expired: is_within_renewal_buffer implies is_session_valid. -/
theorem renewal_buffer_implies_valid (now expiration : Int)
    (h : is_within_renewal_buffer now expiration = true) :
    is_session_valid now expiration = true := by
  unfold is_within_renewal_buffer at h
  unfold is_session_valid
  simp only [decide_eq_true_eq] at h ⊢
  omega

/-- C10 witness: 1000 seconds remaining. -/
theorem renewal_buffer_implies_valid_witness :
    is_session_valid 0 1000 = true :=
  renewal_buffer_implies_valid 0 1000 (by decide)

/-- C8: evaluation at the failing input. A well-formed assertion with
zero role entries makes assume_role raise an uncaught IndexError from
`roles()[0]` rather than InvalidSaml; only an xml ParseError is converted
to InvalidSaml by the surrounding try/except. -/
theorem assume_role_zero_roles_eval :
    assume_role_select (Except.ok []) 1 = Except.error Err.indexError
  ∧ assume_role_select (Except.error ()) 1 = Except.error Err.invalidSaml
  ∧ Err.indexError ≠ Err.invalidSaml := by
  refine ⟨rfl, rfl, by decide⟩

/-- C4 counterexample: with two roles, listed to the user as [1] and [2],
the out-of-range selection 0 is neither rejected nor re-prompted: it is
silently mapped to the last role entry by Python negative indexing. -/
theorem select_role_zero_counterexample :
    assume_role_select (Except.ok [sampleRoleA, sampleRoleB]) 0
      = Except.ok sampleRoleB
  ∧ ((0 : Int) < 1 ∨ (2 : Int) < 0) := by
  refine ⟨rfl, Or.inl (by decide)⟩

/-- On a response carrying every field it reads, set_token stores exactly
the sessionToken field of the response. -/
theorem set_token_wf (ret : AuthResponse) (st : OktaState)
    (h : wellFormedSuccess ret = true) :
    ∃ tok, ret.sessionToken = some tok
      ∧ set_token ret st = Except.ok ⟨st.username, st.password, some tok⟩ := by
  rcases hemb : ret.embedded with _ | emb
  · simp [wellFormedSuccess, hemb] at h
  rcases hu : emb.user with _ | u
  · simp [wellFormedSuccess, hemb, hu] at h
  rcases hp : u.profile with _ | p
  · simp [wellFormedSuccess, hemb, hu, hp] at h
  simp only [wellFormedSuccess, hemb, hu, hp, Bool.and_eq_true,
    Option.isSome_iff_exists] at h
  obtain ⟨⟨⟨fn, hfn⟩, ⟨ln, hln⟩⟩, ⟨tok, htok⟩⟩ := h
  exact ⟨tok, htok, by simp [set_token, getKey, hemb, hu, hp, hfn, hln, htok]⟩

/-- C9: a SUCCESS login response that carries sessionToken but lacks any
field of the `_embedded.user.profile` name path makes auth fail with a
KeyError on one of those keys, and no state (hence no session token) is
ever returned. -/
theorem auth_success_missing_profile_keyerror (ret : AuthResponse)
    (st : OktaState) (tok : String) (pushFn : String → PushOutcome)
    (hs : ret.status = some "SUCCESS") (ht : ret.sessionToken = some tok)
    (hm : ret.embedded = none
      ∨ ∃ emb, ret.embedded = some emb ∧
        (emb.user = none
         ∨ ∃ u, emb.user = some u ∧
           (u.profile = none
            ∨ ∃ p, u.profile = some p ∧
              (p.firstName = none ∨ p.lastName = none)))) :
    (∃ k, auth st (HttpResult.ok ret) pushFn = Except.error (Err.keyError k)
        ∧ (k = "_embedded" ∨ k = "user" ∨ k = "profile"
           ∨ k = "firstName" ∨ k = "lastName"))
  ∧ ∀ st2 : OktaState, auth st (HttpResult.ok ret) pushFn ≠ Except.ok st2 := by
  have hauth : auth st (HttpResult.ok ret) pushFn = set_token ret st := by
    simp [auth, hs]
  have herr : ∃ k, set_token ret st = Except.error (Err.keyError k)
      ∧ (k = "_embedded" ∨ k = "user" ∨ k = "profile"
         ∨ k = "firstName" ∨ k = "lastName") := by
    rcases hm with he | ⟨emb, he, hu | ⟨u, hu, hp | ⟨p, hp, hfl⟩⟩⟩
    · exact ⟨"_embedded", by simp [set_token, getKey, he], by simp⟩
    · exact ⟨"user", by simp [set_token, getKey, he, hu], by simp⟩
    · exact ⟨"profile", by simp [set_token, getKey, he, hu, hp], by simp⟩
    · rcases hfn : p.firstName with _ | fn
      · exact ⟨"firstName", by simp [set_token, getKey, he, hu, hp, hfn],
          by simp⟩
      · rcases hfl with hf | hl
        · rw [hfn] at hf
          exact absurd hf (by simp)
        · exact ⟨"lastName",
            by simp [set_token, getKey, he, hu, hp, hfn, hl], by simp⟩
  obtain ⟨k, hk, hkin⟩ := herr
  refine ⟨⟨k, by rw [hauth, hk], hkin⟩, ?_⟩
  intro st2 hcon
  rw [hauth, hk] at hcon
  exact absurd hcon (by simp)

/-- C9 witness: a SUCCESS response with sessionToken tok1 and no
`_embedded` object fails with a KeyError and never returns a state. -/
theorem auth_success_missing_profile_keyerror_witness :
    (∃ k, auth sampleState (HttpResult.ok sampleBrokenSuccess)
        samplePushReject = Except.error (Err.keyError k)
      ∧ (k = "_embedded" ∨ k = "user" ∨ k = "profile"
         ∨ k = "firstName" ∨ k = "lastName"))
  ∧ ∀ st2 : OktaState,
      auth sampleState (HttpResult.ok sampleBrokenSuccess) samplePushReject
        ≠ Except.ok st2 :=
  auth_success_missing_profile_keyerror sampleBrokenSuccess sampleState
    "tok1" samplePushReject rfl rfl (Or.inl rfl)

/-- C6: validate_mfa returns false with zero requests on a passcode whose
length is not 6; on a 6-character passcode it returns false on HTTP 403
with no further calls, raises UnknownError carrying the body on any other
HTTP error status, returns true exactly on a passing (2xx) response whose
body carries the documented success fields, and never returns true from an
HTTP error response. -/
theorem validate_mfa_behavior (st : OktaState) (fid stok passcode : String) :
    (∀ resp : HttpResult, passcode.length ≠ 6 →
      validate_mfa st fid stok passcode resp = (Except.ok (false, st), 0))
  ∧ (passcode.length = 6 → ∀ body : String,
      validate_mfa st fid stok passcode (HttpResult.httpError 403 body)
        = (Except.ok (false, st), 1))
  ∧ (passcode.length = 6 → ∀ (code : Nat) (body : String), code ≠ 403 →
      validate_mfa st fid stok passcode (HttpResult.httpError code body)
        = (Except.error (Err.unknownError (some body)), 1))
  ∧ (passcode.length = 6 → ∀ ret : AuthResponse,
      wellFormedSuccess ret = true →
      ∃ tok, ret.sessionToken = some tok ∧
        validate_mfa st fid stok passcode (HttpResult.ok ret)
          = (Except.ok (true, ⟨st.username, st.password, some tok⟩), 1))
  ∧ (∀ (code : Nat) (body : String) (st2 : OktaState),
      (validate_mfa st fid stok passcode (HttpResult.httpError code body)).1
        ≠ Except.ok (true, st2)) := by
  refine ⟨?_, ?_, ?_, ?_, ?_⟩
  · intro resp hne
    simp [validate_mfa, hne]
  · intro h6 body
    simp [validate_mfa, h6]
  · intro h6 code body hc
    simp [validate_mfa, h6, hc]
  · intro h6 ret hwf
    obtain ⟨tok, htok, hset⟩ := set_token_wf ret st hwf
    exact ⟨tok, htok, by simp [validate_mfa, h6, hset]⟩
  · intro code body st2
    by_cases h6 : passcode.length = 6
    · by_cases hc : code = 403
      · subst hc
        simp [validate_mfa, h6]
      · simp [validate_mfa, h6, hc]
    · simp [validate_mfa, h6]

/-- C6 witness: the four outcomes at concrete inputs: a 5-character
passcode, a 403, a 500, and a well-formed passing response. -/
theorem validate_mfa_behavior_witness :
    validate_mfa sampleState "f1" "s1" "12345" (HttpResult.httpError 500 "b")
      = (Except.ok (false, sampleState), 0)
  ∧ validate_mfa sampleState "f1" "s1" "123456" (HttpResult.httpError 403 "b")
      = (Except.ok (false, sampleState), 1)
  ∧ validate_mfa sampleState "f1" "s1" "123456" (HttpResult.httpError 500 "b")
      = (Except.error (Err.unknownError (some "b")), 1)
  ∧ ∃ tok, sampleGoodSuccess.sessionToken = some tok ∧
      validate_mfa sampleState "f1" "s1" "123456"
          (HttpResult.ok sampleGoodSuccess)
        = (Except.ok (true,
            ⟨sampleState.username, sampleState.password, some tok⟩), 1) := by
  refine ⟨?_, ?_, ?_, ?_⟩
  · exact (validate_mfa_behavior sampleState "f1" "s1" "12345").1
      (HttpResult.httpError 500 "b") (by decide)
  · exact (validate_mfa_behavior sampleState "f1" "s1" "123456").2.1
      (by decide) "b"
  · exact (validate_mfa_behavior sampleState "f1" "s1" "123456").2.2.1
      (by decide) 500 "b" (by decide)
  · exact (validate_mfa_behavior sampleState "f1" "s1" "123456").2.2.2.1
      (by decide) sampleGoodSuccess (by decide)

/-- When every push poll is interrupted, the push-factor loop of auth
falls through without storing a token: the KeyboardInterrupt is caught
and breaks the loop. -/
theorem push_scan_interrupt (factors : List Factor)
    (pushFn : String → PushOutcome)
    (hall : ∀ x ∈ factors, x.factorType = "push" →
      pushFn x.id = PushOutcome.interrupted) :
    push_scan factors pushFn = none := by
  induction factors with
  | nil => rfl
  | cons a rest ih =>
    have hrest : ∀ x ∈ rest, x.factorType = "push" →
        pushFn x.id = PushOutcome.interrupted :=
      fun x hx => hall x (List.mem_cons_of_mem a hx)
    by_cases ha : a.factorType = "push"
    · have hi : pushFn a.id = PushOutcome.interrupted :=
        hall a (List.mem_cons_self a rest) ha
      simp [push_scan, ha, hi]
    · simp [push_scan, ha, ih hrest]

/-- C7: on an MFA-required login whose factor set offers a push factor,
when a KeyboardInterrupt arrives during the push-polling wait, auth does
not raise the interrupt to the caller: the polling loop is abandoned and
auth falls through to the passcode path, raising PasscodeRequired with
the first totp factor's id and the response's stateToken. -/
theorem auth_interrupt_falls_through (st : OktaState) (ret : AuthResponse)
    (emb : Embedded) (factors : List Factor) (sTok : String)
    (pushFn : String → PushOutcome) (f : Factor)
    (hstatus : ret.status = some "MFA_REQUIRED"
      ∨ ret.status = some "MFA_CHALLENGE")
    (hemb : ret.embedded = some emb) (hfac : emb.factors = some factors)
    (hstok : ret.stateToken = some sTok)
    (hpushExists : ∃ g ∈ factors, g.factorType = "push")
    (hint : ∀ x ∈ factors, x.factorType = "push" →
      pushFn x.id = PushOutcome.interrupted)
    (hf : totp_scan factors = some f) :
    auth st (HttpResult.ok ret) pushFn
      = Except.error (Err.passcodeRequired f.id sTok)
  ∧ auth st (HttpResult.ok ret) pushFn
      ≠ Except.error Err.keyboardInterrupt := by
  have hps := push_scan_interrupt factors pushFn hint
  have hmain : auth st (HttpResult.ok ret) pushFn
      = Except.error (Err.passcodeRequired f.id sTok) := by
    rcases hstatus with h | h <;>
      simp [auth, h, hemb, hfac, getKey, hps, hf, hstok]
  refine ⟨hmain, ?_⟩
  rw [hmain]
  simp

/-- C7 witness: an MFA_REQUIRED response with a push factor and a totp
factor, every polling wait interrupted. -/
theorem auth_interrupt_falls_through_witness :
    auth sampleState (HttpResult.ok sampleMfaResponse) samplePushInterrupt
      = Except.error (Err.passcodeRequired "ft1" "st9")
  ∧ auth sampleState (HttpResult.ok sampleMfaResponse) samplePushInterrupt
      ≠ Except.error Err.keyboardInterrupt :=
  auth_interrupt_falls_through sampleState sampleMfaResponse
    ⟨none, some sampleMfaFactors⟩ sampleMfaFactors "st9" samplePushInterrupt
    ⟨"ft1", "token:software:totp"⟩ (Or.inl rfl) rfl rfl rfl
    ⟨⟨"fp1", "push"⟩, by decide, rfl⟩ (fun x hx hp => rfl) rfl

/-- On a response that keeps the loop polling, one loop iteration
consumes one response and issues one more request. -/
theorem push_loop_seq_cons_nonDecisive (st : OktaState) (r : AuthResponse)
    (rs : List AuthResponse) (used : Nat) (h : nonDecisive r = true) :
    push_loop_seq st (r :: rs) used = push_loop_seq st rs (used + 1) := by
  rcases hrs : r.status with _ | s
  · simp [nonDecisive, hrs] at h
  rcases hrf : r.factorResult with _ | fr
  · simp [nonDecisive, hrs, hrf] at h
  rcases hrn : r.next with _ | nx
  · simp [nonDecisive, hrs, hrf, hrn] at h
  simp only [nonDecisive, hrs, hrf, hrn, Bool.and_eq_true,
    decide_eq_true_eq, Option.isSome_some, and_true] at h
  obtain ⟨hns, hnfr⟩ := h
  cases rs with
  | nil => simp [push_loop_seq, push_loop, hrs, hrf, hrn, hns, hnfr]
  | cons a as => simp [push_loop_seq, push_loop, hrs, hrf, hrn, hns, hnfr]

/-- Running the loop past a block of responses that keep it polling
advances the request counter by the length of the block. -/
theorem push_loop_seq_append (st : OktaState) (rs : List AuthResponse)
    (pre : List AuthResponse) (used : Nat)
    (hpre : ∀ r ∈ pre, nonDecisive r = true) :
    push_loop_seq st (pre ++ rs) used
      = push_loop_seq st rs (used + pre.length) := by
  revert hpre
  induction pre generalizing used with
  | nil =>
    intro _
    simp
  | cons a as ih =>
    intro hpre
    have ha : nonDecisive a = true := hpre a (List.mem_cons_self a as)
    have has : ∀ r ∈ as, nonDecisive r = true :=
      fun r hr => hpre r (List.mem_cons_of_mem a hr)
    rw [List.cons_append,
      push_loop_seq_cons_nonDecisive st a (as ++ rs) used ha,
      ih (used + 1) has]
    congr 1
    simp only [List.length_cons]
    omega

/-- C2: for every finite response sequence made of a block of polling
responses followed by a decisive one, the push loop terminates at the
decisive response, having issued exactly one request per consumed
response and none after it. Reaching status SUCCESS returns true with
the stored session token; reaching a non-SUCCESS response whose
factorResult is REJECTED or absent returns false at once. -/
theorem okta_verify_with_push_decisive (st : OktaState)
    (pre suffix : List AuthResponse) (d : AuthResponse)
    (hpre : ∀ r ∈ pre, nonDecisive r = true) :
    (d.status = some "SUCCESS" → wellFormedSuccess d = true →
      ∃ tok, d.sessionToken = some tok ∧
        okta_verify_with_push st (pre ++ d :: suffix)
          = some (Except.ok (true,
              ⟨st.username, st.password, some tok⟩), pre.length + 1))
  ∧ (∀ s, d.status = some s → s ≠ "SUCCESS" →
      (d.factorResult = none ∨ d.factorResult = some "REJECTED") →
      okta_verify_with_push st (pre ++ d :: suffix)
        = some (Except.ok (false, st), pre.length + 1)) := by
  have hbase : okta_verify_with_push st (pre ++ d :: suffix)
      = push_loop_seq st (d :: suffix) (pre.length + 1) := by
    unfold okta_verify_with_push
    rw [push_loop_seq_append st (d :: suffix) pre 1 hpre]
    congr 1
    omega
  constructor
  · intro hs hwf
    obtain ⟨tok, htok, hset⟩ := set_token_wf d st hwf
    refine ⟨tok, htok, ?_⟩
    rw [hbase]
    cases suffix with
    | nil => simp [push_loop_seq, push_loop, hs, hset, Except.map]
    | cons a as => simp [push_loop_seq, push_loop, hs, hset, Except.map]
  · intro s hs hns hfr
    rw [hbase]
    rcases hfr with h | h <;> cases suffix <;>
      simp [push_loop_seq, push_loop, hs, hns, h]

/-- C2 witness: one waiting poll response followed by a well-formed
SUCCESS response: the loop returns true after exactly 2 requests. -/
theorem okta_verify_with_push_decisive_witness :
    ∃ tok, sampleGoodSuccess.sessionToken = some tok ∧
      okta_verify_with_push sampleState
          ([sampleWaiting] ++ sampleGoodSuccess :: [])
        = some (Except.ok (true,
            ⟨sampleState.username, sampleState.password, some tok⟩), 2) := by
  have hpre : ∀ r ∈ [sampleWaiting], nonDecisive r = true := by
    intro r hr
    simp only [List.mem_singleton] at hr
    subst hr
    decide
  have h := (okta_verify_with_push_decisive sampleState [sampleWaiting] []
      sampleGoodSuccess hpre).1 rfl (by decide)
  simpa using h

/-- With more than one role present, assume_role applies the decremented
selection to the role list with Python indexing. -/
theorem assume_role_select_unfold (r0 : RoleEntry) (rest : List RoleEntry)
    (sel : Int) (hlen : 1 < (r0 :: rest).length) :
    assume_role_select (Except.ok (r0 :: rest)) sel
      = match py_index (r0 :: rest) (sel - 1) with
        | some r => Except.ok r
        | none => Except.error Err.indexError := by
  simp only [assume_role_select]
  rw [if_pos hlen]

/-- C4 amended: with more than one role, the selection typed at the
prompt is applied to the role list with raw Python indexing and is never
re-prompted: selections 1..n return the corresponding listed entry,
selections k with 1-n ≤ k ≤ 0 silently return the entry at position
n+k-1 by Python negative indexing, and any other selection raises an
uncaught IndexError. -/
theorem select_role_indexing (roles : List RoleEntry) (sel : Int)
    (hlen : 1 < roles.length) :
    (1 ≤ sel → sel ≤ (roles.length : Int) →
      ∃ r, assume_role_select (Except.ok roles) sel = Except.ok r
        ∧ roles.get? (sel - 1).toNat = some r)
  ∧ (1 - (roles.length : Int) ≤ sel → sel ≤ 0 →
      ∃ r, assume_role_select (Except.ok roles) sel = Except.ok r
        ∧ roles.get? ((roles.length : Int) + sel - 1).toNat = some r)
  ∧ ((sel < 1 - (roles.length : Int) ∨ (roles.length : Int) < sel) →
      assume_role_select (Except.ok roles) sel
        = Except.error Err.indexError) := by
  cases roles with
  | nil => simp at hlen
  | cons r0 rest =>
    have hunf := assume_role_select_unfold r0 rest sel hlen
    refine ⟨?_, ?_, ?_⟩
    · intro h1 h2
      have h0 : (0 : Int) ≤ sel - 1 := by omega
      have hx : (sel - 1).toNat < (r0 :: rest).length := by
        simp only [List.length_cons] at h2 ⊢
        omega
      have hr : (r0 :: rest).get? ((sel - 1).toNat)
          = some ((r0 :: rest).get ⟨(sel - 1).toNat, hx⟩) :=
        List.get?_eq_get hx
      have hpy : py_index (r0 :: rest) (sel - 1)
          = some ((r0 :: rest).get ⟨(sel - 1).toNat, hx⟩) := by
        unfold py_index
        rw [if_pos h0]
        exact hr
      refine ⟨(r0 :: rest).get ⟨(sel - 1).toNat, hx⟩, ?_, hr⟩
      rw [hunf, hpy]
    · intro h1 h2
      have h0 : ¬ ((0 : Int) ≤ sel - 1) := by omega
      have hle : (-(sel - 1)).toNat ≤ (r0 :: rest).length := by
        simp only [List.length_cons] at h1 ⊢
        omega
      have hx : (r0 :: rest).length - (-(sel - 1)).toNat
          < (r0 :: rest).length := by
        simp only [List.length_cons] at h1 ⊢
        omega
      have hcast : ((((r0 :: rest).length : Int)) + sel - 1).toNat
          = (r0 :: rest).length - (-(sel - 1)).toNat := by
        omega
      have hr : (r0 :: rest).get?
            ((r0 :: rest).length - (-(sel - 1)).toNat)
          = some ((r0 :: rest).get
              ⟨(r0 :: rest).length - (-(sel - 1)).toNat, hx⟩) :=
        List.get?_eq_get hx
      have hpy : py_index (r0 :: rest) (sel - 1)
          = some ((r0 :: rest).get
              ⟨(r0 :: rest).length - (-(sel - 1)).toNat, hx⟩) := by
        unfold py_index
        rw [if_neg h0, if_pos hle]
        exact hr
      refine ⟨(r0 :: rest).get
          ⟨(r0 :: rest).length - (-(sel - 1)).toNat, hx⟩, ?_, ?_⟩
      · rw [hunf, hpy]
      · rw [hcast]
        exact hr
    · intro h
      rcases h with h | h
      · have h0 : ¬ ((0 : Int) ≤ sel - 1) := by
          simp only [List.length_cons] at h
          omega
        have hgt : ¬ ((-(sel - 1)).toNat ≤ (r0 :: rest).length) := by
          simp only [List.length_cons] at h ⊢
          omega
        have hpy : py_index (r0 :: rest) (sel - 1) = none := by
          unfold py_index
          rw [if_neg h0, if_neg hgt]
        rw [hunf, hpy]
      · have h0 : (0 : Int) ≤ sel - 1 := by
          simp only [List.length_cons] at h
          omega
        have hn : (r0 :: rest).length ≤ (sel - 1).toNat := by
          simp only [List.length_cons] at h ⊢
          omega
        have hpy : py_index (r0 :: rest) (sel - 1) = none := by
          unfold py_index
          rw [if_pos h0]
          exact List.get?_eq_none.mpr hn
        rw [hunf, hpy]

/-- C4 amended witness: two roles, valid selection 2 returns the second
listed entry. -/
theorem select_role_indexing_witness :
    ∃ r, assume_role_select (Except.ok [sampleRoleA, sampleRoleB]) 2
        = Except.ok r
      ∧ [sampleRoleA, sampleRoleB].get? ((2 : Int) - 1).toNat = some r :=
  (select_role_indexing [sampleRoleA, sampleRoleB] 2 (by decide)).1
    (by decide) (by decide)

end NdOktaAuth
